import Mathlib

/-!
Verification development for the OSCAL component / SSP core of the atoasap_api
repository.

The Python sources under `src/` are embedded shallowly: pydantic model classes become
structures, list comprehensions become list functions, raised exceptions (`KeyError`)
become `Except` results, and machine-generated UUIDs become values drawn from an
explicit supply.  Modules of the repository that the claims depend on but that are not
shipped under `src/` (`blueprintapi/oscal/oscal.py`, `blueprintapi/oscal/ssp.py`,
`components/componentio.py`, the projects aggregation view and the `Catalog.Version`
enum of `catalogs/models.py`) are modelled from the specification; every such
definition carries a doc comment starting with "Modelled from the spec:".
-/

/-! ## A small JSON universe

The wire form of OSCAL documents.  Only the constructors the component-definition
subset needs are present: strings, arrays and (insertion-ordered) objects. -/

inductive Json where
  | str (s : String)
  | arr (elems : List Json)
  | obj (fields : List (String × Json))

/-- First binding of a key in a JSON object, in insertion order. -/
def Json.lookupKey (key : String) : List (String × Json) → Option Json
  | [] => none
  | (k, v) :: rest => if k = key then some v else Json.lookupKey key rest

/-- Parse every element of a JSON array, failing if any element fails. -/
def parseList {α : Type} (f : Json → Option α) : List Json → Option (List α)
  | [] => some []
  | j :: rest =>
    match f j, parseList f rest with
    | some a, some xs => some (a :: xs)
    | _, _ => none

/-- Parse a required string field. -/
def reqStr (kvs : List (String × Json)) (key : String) : Option String :=
  match Json.lookupKey key kvs with
  | some (Json.str s) => some s
  | _ => none

/-- Parse a string field that defaults to a given value when absent. -/
def defStr (kvs : List (String × Json)) (key : String) (dflt : String) : Option String :=
  match Json.lookupKey key kvs with
  | none => some dflt
  | some (Json.str s) => some s
  | _ => none

/-- Parse an optional string field: absent parses to `none`. -/
def optStr (kvs : List (String × Json)) (key : String) : Option (Option String) :=
  match Json.lookupKey key kvs with
  | none => some none
  | some (Json.str s) => some (some s)
  | _ => none

/-- Parse an optional list field: absent parses to `none`, a present array is parsed
elementwise. -/
def optList {α : Type} (f : Json → Option α) (kvs : List (String × Json)) (key : String) :
    Option (Option (List α)) :=
  match Json.lookupKey key kvs with
  | none => some none
  | some (Json.arr js) => (parseList f js).map some
  | _ => none

/-- Parse a list field whose pydantic default is the empty list: absent parses to `[]`. -/
def defList {α : Type} (f : Json → Option α) (kvs : List (String × Json)) (key : String) :
    Option (List α) :=
  match Json.lookupKey key kvs with
  | none => some []
  | some (Json.arr js) => parseList f js
  | _ => none

/-- Parse a JSON string into a `String`. -/
def parseStr : Json → Option String
  | Json.str s => some s
  | _ => none

/-- Emit an optional string field: absent values are dropped. -/
def optStrField (key : String) : Option String → List (String × Json)
  | none => []
  | some s => [(key, Json.str s)]

/-- Emit an optional list field that is not marked omit-if-falsy: absent values are
dropped, explicit values (the empty list included) are emitted. -/
def optListField (key : String) : Option (List Json) → List (String × Json)
  | none => []
  | some js => [(key, Json.arr js)]

/-- Modelled from the spec: the `exclude_if_false` rule of the OSCAL element base
(`blueprintapi/oscal/oscal.py`, not under `src/`) — a field named in a model
`exclude_if_false` configuration is omitted from the wire form whenever its value is
falsy, i.e. absent or an empty list (section 4.1: fields holding None/empty are omitted
from output only for fields explicitly marked omit-if-falsy). -/
def exclOptListField (key : String) : Option (List Json) → List (String × Json)
  | none => []
  | some [] => []
  | some js => [(key, Json.arr js)]

/-- Modelled from the spec: the `exclude_if_false` rule applied to a required list field
with default `[]` (such as `control-implementations` on `Component`). -/
def exclListField (key : String) : List Json → List (String × Json)
  | [] => []
  | js => [(key, Json.arr js)]

/-! ## The component-definition model (`src/blueprintapi/oscal/component.py`)

`MarkupLine`, `MarkupMultiLine` and `NCName` are string types; UUIDs travel as
strings on the wire and are kept as strings here. -/

/-- Modelled from the spec: `Property` from `blueprintapi/oscal/oscal.py` (the OSCAL
element base module is not under `src/`); the data model describes props as ordered
name/value pairs. -/
structure Property where
  name : String
  value : String
deriving DecidableEq

/-- Modelled from the spec: `Link` from `blueprintapi/oscal/oscal.py` (not under
`src/`); links are like-shaped objects in an ordered polymorphic container, carrying an
href and an optional text. -/
structure Link where
  href : String
  text : Option String
deriving DecidableEq

/-- Modelled from the spec: `ResponsibleRole` from `blueprintapi/oscal/oscal.py` (not
under `src/`); carries the role id, serialized under the kebab-case key `role-id`. -/
structure ResponsibleRole where
  role_id : String
deriving DecidableEq

/-- Modelled from the spec: `Parameter` from `blueprintapi/oscal/oscal.py` (not under
`src/`); a set-parameter carries a `param_id` (wire key `param-id`) and values. -/
structure Parameter where
  param_id : String
  values : List String
deriving DecidableEq

/-- `Protocol` from `component.py`: a model class with no declared fields. -/
structure Protocol where
deriving DecidableEq

/-- `ComponentTypeEnum` from `component.py`. -/
inductive ComponentTypeEnum where
  | software
  | hardware
  | service
  | interconnection
  | policy
  | process
  | procedure
  | plan
  | guidance
  | standard
  | validation
deriving DecidableEq

/-- Wire value of a component type. -/
def ComponentTypeEnum.toWire : ComponentTypeEnum → String
  | software => "software"
  | hardware => "hardware"
  | service => "service"
  | interconnection => "interconnection"
  | policy => "policy"
  | process => "process"
  | procedure => "procedure"
  | plan => "plan"
  | guidance => "guidance"
  | standard => "standard"
  | validation => "validation"

/-- Parse a wire component type. -/
def ComponentTypeEnum.ofWire : String → Option ComponentTypeEnum
  | "software" => some software
  | "hardware" => some hardware
  | "service" => some service
  | "interconnection" => some interconnection
  | "policy" => some policy
  | "process" => some process
  | "procedure" => some procedure
  | "plan" => some plan
  | "guidance" => some guidance
  | "standard" => some standard
  | "validation" => some validation
  | _ => none

/-- `Statement` from `component.py`. -/
structure Statement where
  statement_id : String
  uuid : String
  description : String := ""
  props : Option (List Property) := none
  links : Option (List Link) := none
  responsible_roles : Option (List ResponsibleRole) := none
  remarks : Option String := none
deriving DecidableEq

/-- `ImplementedRequirement` from `component.py`. -/
structure ImplementedRequirement where
  uuid : String
  control_id : String
  description : String
  props : Option (List Property) := none
  links : Option (List Link) := none
  set_parameters : Option (List Parameter) := none
  responsible_roles : Option (List ResponsibleRole) := none
  statements : Option (List Statement) := none
  remarks : Option String := none
deriving DecidableEq

/-- `ImplementedRequirement._props_filter`: first property with the given name, if
any (the `next(filter(...), None)` idiom). -/
def ImplementedRequirement.props_filter (self : ImplementedRequirement) (name : String) :
    Option String :=
  match self.props with
  | none => none
  | some props => (props.find? (fun prop => prop.name == name)).map (fun prop => prop.value)

/-- `ImplementedRequirement.responsibility`. -/
def ImplementedRequirement.responsibility (self : ImplementedRequirement) : Option String :=
  self.props_filter "security_control_type"

/-- `ImplementedRequirement.provider`. -/
def ImplementedRequirement.provider (self : ImplementedRequirement) : Option String :=
  self.props_filter "provider"

/-- Python truthiness of an optional list: `None` and the empty list are falsy. -/
def optListFalsy {α : Type} : Option (List α) → Bool
  | none => true
  | some [] => true
  | some (_ :: _) => false

/-- The Python comparison performed elementwise by the membership test
`key in self.statements` in `ImplementedRequirement.add_statement`: the key is a string
(`NCName`) while the list elements are `Statement` model objects, and equality between a
`str` and a pydantic model object is `False` for every element, so no element ever
matches. -/
def statementKeyMatches (_key : String) (_statement : Statement) : Bool := false

/-- The Python comparison performed elementwise by `key in self.set_parameters` in
`ImplementedRequirement.add_parameter`: a string `param_id` against `Parameter` model
objects, always `False`. -/
def parameterKeyMatches (_key : String) (_parameter : Parameter) : Bool := false

/-- The Python comparison performed elementwise by `key in self.props` in
`ImplementedRequirement.add_property`: a string name against `Property` model objects,
always `False`. -/
def propertyKeyMatches (_key : String) (_property : Property) : Bool := false

/-- `ImplementedRequirement.add_statement`. -/
def ImplementedRequirement.add_statement (self : ImplementedRequirement)
    (statement : Statement) : Except String ImplementedRequirement :=
  let key := statement.statement_id
  if optListFalsy self.statements then
    Except.ok { self with statements := some [statement] }
  else if (self.statements.getD []).any (statementKeyMatches key) then
    Except.error ("Statement " ++ key ++ " already in ImplementedRequirement" ++
      " for \x7bself.control_id\x7d")
  else
    Except.ok { self with statements := some (self.statements.getD [] ++ [statement]) }

/-- `ImplementedRequirement.add_parameter`. -/
def ImplementedRequirement.add_parameter (self : ImplementedRequirement)
    (set_parameter : Parameter) : Except String ImplementedRequirement :=
  let key := set_parameter.param_id
  if optListFalsy self.set_parameters then
    Except.ok { self with set_parameters := some [set_parameter] }
  else if (self.set_parameters.getD []).any (parameterKeyMatches key) then
    Except.error ("SetParameter " ++ key ++ " already in ImplementedRequirement" ++
      " for \x7bself.control_id\x7d")
  else
    Except.ok { self with set_parameters := some (self.set_parameters.getD [] ++ [set_parameter]) }

/-- `ImplementedRequirement.add_property`. -/
def ImplementedRequirement.add_property (self : ImplementedRequirement)
    (property : Property) : Except String ImplementedRequirement :=
  let key := property.name
  if optListFalsy self.props then
    Except.ok { self with props := some [property] }
  else if (self.props.getD []).any (propertyKeyMatches key) then
    Except.error ("Property " ++ key ++ " already in ImplementedRequirement" ++
      " for \x7bself.control_id\x7d")
  else
    Except.ok { self with props := some (self.props.getD [] ++ [property]) }

/-- `ControlImplementation` from `component.py`. -/
structure ControlImplementation where
  uuid : String
  source : String
  description : String
  props : Option (List Property) := none
  links : Option (List Link) := none
  implemented_requirements : List ImplementedRequirement := []
deriving DecidableEq

/-- `Component` from `component.py`. -/
structure Component where
  uuid : String
  type : ComponentTypeEnum := ComponentTypeEnum.software
  title : String
  description : String
  purpose : Option String := none
  props : Option (List Property) := none
  links : Option (List Link) := none
  responsible_roles : Option (List ResponsibleRole) := none
  protocols : Option (List Protocol) := none
  control_implementations : List ControlImplementation := []
  remarks : Option String := none
deriving DecidableEq

/-- `Component.get_control_implementation`: `next(filter(...))` over the
control implementations, matching on the `description` version tag; the
`StopIteration` branch re-raises as a `KeyError`. -/
def Component.get_control_implementation (self : Component) (catalog_version : String) :
    Except String ControlImplementation :=
  match self.control_implementations.find? (fun imp => imp.description == catalog_version) with
  | some imp => Except.ok imp
  | none =>
    Except.error ("Provided catalog version is not in control implementations: " ++
      catalog_version)

/-- `Component.control_ids`: `list({... set comprehension ...})`.  A Python set
iterates in an unspecified order; the deduplicated collection is modelled with
`List.dedup`. -/
def Component.control_ids (self : Component) : List String :=
  (((self.control_implementations.map
      (fun implementation => implementation.implemented_requirements)).flatten).map
      (fun item => item.control_id)).dedup

/-- `Component.controls`: `if not catalog_version` — both `None` and the empty string
are falsy in Python — flattens every implementation; otherwise the lookup by version
tag is delegated to `get_control_implementation`. -/
def Component.controls (self : Component) (catalog_version : Option String) :
    Except String (List ImplementedRequirement) :=
  match catalog_version with
  | none =>
    Except.ok ((self.control_implementations.map
      (fun implementation => implementation.implemented_requirements)).flatten)
  | some v =>
    if v = "" then
      Except.ok ((self.control_implementations.map
        (fun implementation => implementation.implemented_requirements)).flatten)
    else
      (self.get_control_implementation v).map
        (fun implementation => implementation.implemented_requirements)

/-- `Component.get_control`: resolve the implementation for the catalog version, then
`next(filter(...))` on the requirement by `control_id`; the `StopIteration` branch
re-raises as a `KeyError`. -/
def Component.get_control (self : Component) (control_id : String)
    (catalog_version : String) : Except String ImplementedRequirement :=
  match self.get_control_implementation catalog_version with
  | Except.error e => Except.error e
  | Except.ok implementation =>
    match implementation.implemented_requirements.find?
        (fun req => req.control_id == control_id) with
    | some req => Except.ok req
    | none => Except.error (control_id ++ " is not implemented in this component.")

/-- Modelled from the spec: the `Catalog.Version` enum of `catalogs/models.py` (the
copy of that file under `src/` omits it, but its tests and the projects tests exercise
the members `NIST_SP80053R4` and `NIST_SP80053R5` — the two external-standard revisions
the catalog loader supplies). -/
inductive Catalog.Version where
  | NIST_SP80053R4
  | NIST_SP80053R5
deriving DecidableEq

/-- Modelled from the spec: constructing `Catalog.Version(item.description)` — parsing a
version tag string raises `ValueError` on unrecognized values, embedded as `none`. -/
def Catalog.Version.ofDescription : String → Option Catalog.Version
  | "NIST_SP80053R4" => some Catalog.Version.NIST_SP80053R4
  | "NIST_SP80053R5" => some Catalog.Version.NIST_SP80053R5
  | _ => none

/-- `Component.catalog_versions`: each implementation description is parsed as a
`Catalog.Version`; the `except ValueError: continue` arm silently skips unrecognized
tags, and the set-accumulation deduplicates.  The unspecified Python set order is
modelled with `List.dedup`. -/
def Component.catalog_versions (self : Component) : List Catalog.Version :=
  (self.control_implementations.filterMap
    (fun item => Catalog.Version.ofDescription item.description)).dedup

/-! ## Serialization (section 4.1 contract, with the per-type `Config` data of
`component.py`)

Modelled from the spec: the shared serialization machinery lives in the OSCAL element
base (`blueprintapi/oscal/oscal.py`, not under `src/`).  Per section 4.1: internal
identifiers are renamed to kebab-case wire names symmetrically on read and write;
absent optional fields are omitted; fields marked omit-if-falsy (`exclude_if_false`)
are also omitted when empty; field order on emission follows the declared field order;
unknown incoming fields are rejected (strict schema).  The renames and
`exclude_if_false` sets below are copied from the `Config` inner classes of
`component.py`. -/

/-- Wire form of a `Property`. -/
def Property.toJson (p : Property) : Json :=
  Json.obj [("name", Json.str p.name), ("value", Json.str p.value)]

/-- Parse a wire `Property`. -/
def Property.fromJson? : Json → Option Property
  | Json.obj kvs =>
    if kvs.all (fun kv => kv.1 ∈ ["name", "value"]) then do
      let n ← reqStr kvs "name"
      let v ← reqStr kvs "value"
      pure ⟨n, v⟩
    else none
  | _ => none

/-- Wire form of a `Link`. -/
def Link.toJson (l : Link) : Json :=
  Json.obj ([("href", Json.str l.href)] ++ optStrField "text" l.text)

/-- Parse a wire `Link`. -/
def Link.fromJson? : Json → Option Link
  | Json.obj kvs =>
    if kvs.all (fun kv => kv.1 ∈ ["href", "text"]) then do
      let h ← reqStr kvs "href"
      let t ← optStr kvs "text"
      pure ⟨h, t⟩
    else none
  | _ => none

/-- Wire form of a `ResponsibleRole` (rename: `role_id` to `role-id`). -/
def ResponsibleRole.toJson (r : ResponsibleRole) : Json :=
  Json.obj [("role-id", Json.str r.role_id)]

/-- Parse a wire `ResponsibleRole`. -/
def ResponsibleRole.fromJson? : Json → Option ResponsibleRole
  | Json.obj kvs =>
    if kvs.all (fun kv => kv.1 ∈ ["role-id"]) then do
      let r ← reqStr kvs "role-id"
      pure ⟨r⟩
    else none
  | _ => none

/-- Wire form of a `Parameter` (rename: `param_id` to `param-id`). -/
def Parameter.toJson (p : Parameter) : Json :=
  Json.obj [("param-id", Json.str p.param_id), ("values", Json.arr (p.values.map Json.str))]

/-- Parse a wire `Parameter`. -/
def Parameter.fromJson? : Json → Option Parameter
  | Json.obj kvs =>
    if kvs.all (fun kv => kv.1 ∈ ["param-id", "values"]) then do
      let pid ← reqStr kvs "param-id"
      let vs ←
        match Json.lookupKey "values" kvs with
        | some (Json.arr js) => parseList parseStr js
        | _ => none
      pure ⟨pid, vs⟩
    else none
  | _ => none

/-- Wire form of a `Protocol` (no declared fields). -/
def Protocol.toJson (_p : Protocol) : Json := Json.obj []

/-- Parse a wire `Protocol`. -/
def Protocol.fromJson? : Json → Option Protocol
  | Json.obj kvs => if kvs.isEmpty then some ⟨⟩ else none
  | _ => none

/-- Wire form of a `Statement` (renames: `statement_id` to `statement-id`,
`responsible_roles` to `responsible-roles`; no `exclude_if_false` fields). -/
def Statement.toJson (s : Statement) : Json :=
  Json.obj
    ([("statement-id", Json.str s.statement_id), ("uuid", Json.str s.uuid),
       ("description", Json.str s.description)]
      ++ optListField "props" (s.props.map (fun l => l.map Property.toJson))
      ++ optListField "links" (s.links.map (fun l => l.map Link.toJson))
      ++ optListField "responsible-roles"
          (s.responsible_roles.map (fun l => l.map ResponsibleRole.toJson))
      ++ optStrField "remarks" s.remarks)

/-- Parse a wire `Statement`.  `description` has pydantic default `""`; `uuid` has a
random `uuid4` default factory, which a pure model cannot supply, so the field is
required here (every serialized form carries it). -/
def Statement.fromJson? : Json → Option Statement
  | Json.obj kvs =>
    if kvs.all (fun kv =>
        kv.1 ∈ ["statement-id", "uuid", "description", "props", "links",
          "responsible-roles", "remarks"]) then do
      let sid ← reqStr kvs "statement-id"
      let u ← reqStr kvs "uuid"
      let d ← defStr kvs "description" ""
      let ps ← optList Property.fromJson? kvs "props"
      let ls ← optList Link.fromJson? kvs "links"
      let rr ← optList ResponsibleRole.fromJson? kvs "responsible-roles"
      let rem ← optStr kvs "remarks"
      pure ⟨sid, u, d, ps, ls, rr, rem⟩
    else none
  | _ => none

/-- Wire form of an `ImplementedRequirement` (renames: `control_id` to `control-id`,
`responsible_roles` to `responsible-roles`, `set_parameters` to `set-parameters`;
`exclude_if_false` = statements, responsible-roles, set-parameters). -/
def ImplementedRequirement.toJson (ir : ImplementedRequirement) : Json :=
  Json.obj
    ([("uuid", Json.str ir.uuid), ("control-id", Json.str ir.control_id),
       ("description", Json.str ir.description)]
      ++ optListField "props" (ir.props.map (fun l => l.map Property.toJson))
      ++ optListField "links" (ir.links.map (fun l => l.map Link.toJson))
      ++ exclOptListField "set-parameters"
          (ir.set_parameters.map (fun l => l.map Parameter.toJson))
      ++ exclOptListField "responsible-roles"
          (ir.responsible_roles.map (fun l => l.map ResponsibleRole.toJson))
      ++ exclOptListField "statements" (ir.statements.map (fun l => l.map Statement.toJson))
      ++ optStrField "remarks" ir.remarks)

/-- Parse a wire `ImplementedRequirement`. -/
def ImplementedRequirement.fromJson? : Json → Option ImplementedRequirement
  | Json.obj kvs =>
    if kvs.all (fun kv =>
        kv.1 ∈ ["uuid", "control-id", "description", "props", "links", "set-parameters",
          "responsible-roles", "statements", "remarks"]) then do
      let u ← reqStr kvs "uuid"
      let cid ← reqStr kvs "control-id"
      let d ← reqStr kvs "description"
      let ps ← optList Property.fromJson? kvs "props"
      let ls ← optList Link.fromJson? kvs "links"
      let sp ← optList Parameter.fromJson? kvs "set-parameters"
      let rr ← optList ResponsibleRole.fromJson? kvs "responsible-roles"
      let st ← optList Statement.fromJson? kvs "statements"
      let rem ← optStr kvs "remarks"
      pure ⟨u, cid, d, ps, ls, sp, rr, st, rem⟩
    else none
  | _ => none

/-- Wire form of a `ControlImplementation` (rename: `implemented_requirements` to
`implemented-requirements`; no `exclude_if_false` fields, so the requirement list is
always emitted). -/
def ControlImplementation.toJson (ci : ControlImplementation) : Json :=
  Json.obj
    ([("uuid", Json.str ci.uuid), ("source", Json.str ci.source),
       ("description", Json.str ci.description)]
      ++ optListField "props" (ci.props.map (fun l => l.map Property.toJson))
      ++ optListField "links" (ci.links.map (fun l => l.map Link.toJson))
      ++ [("implemented-requirements",
            Json.arr (ci.implemented_requirements.map ImplementedRequirement.toJson))])

/-- Parse a wire `ControlImplementation`.  `implemented_requirements` has pydantic
default `[]`, so an absent field parses to the empty list. -/
def ControlImplementation.fromJson? : Json → Option ControlImplementation
  | Json.obj kvs =>
    if kvs.all (fun kv =>
        kv.1 ∈ ["uuid", "source", "description", "props", "links",
          "implemented-requirements"]) then do
      let u ← reqStr kvs "uuid"
      let src ← reqStr kvs "source"
      let d ← reqStr kvs "description"
      let ps ← optList Property.fromJson? kvs "props"
      let ls ← optList Link.fromJson? kvs "links"
      let irs ← defList ImplementedRequirement.fromJson? kvs "implemented-requirements"
      pure ⟨u, src, d, ps, ls, irs⟩
    else none
  | _ => none

/-- Wire form of a `Component` (renames: `control_implementations` to
`control-implementations`, `responsible_roles` to `responsible-roles`;
`exclude_if_false` = control-implementations). -/
def Component.toJson (c : Component) : Json :=
  Json.obj
    ([("uuid", Json.str c.uuid), ("type", Json.str c.type.toWire),
       ("title", Json.str c.title), ("description", Json.str c.description)]
      ++ optStrField "purpose" c.purpose
      ++ optListField "props" (c.props.map (fun l => l.map Property.toJson))
      ++ optListField "links" (c.links.map (fun l => l.map Link.toJson))
      ++ optListField "responsible-roles"
          (c.responsible_roles.map (fun l => l.map ResponsibleRole.toJson))
      ++ optListField "protocols" (c.protocols.map (fun l => l.map Protocol.toJson))
      ++ exclListField "control-implementations"
          (c.control_implementations.map ControlImplementation.toJson)
      ++ optStrField "remarks" c.remarks)

/-- Parse a wire `Component`.  `type` has pydantic default `software`;
`control_implementations` has default `[]`. -/
def Component.fromJson? : Json → Option Component
  | Json.obj kvs =>
    if kvs.all (fun kv =>
        kv.1 ∈ ["uuid", "type", "title", "description", "purpose", "props", "links",
          "responsible-roles", "protocols", "control-implementations", "remarks"]) then do
      let u ← reqStr kvs "uuid"
      let ty ←
        match Json.lookupKey "type" kvs with
        | none => some ComponentTypeEnum.software
        | some (Json.str s) => ComponentTypeEnum.ofWire s
        | some _ => none
      let t ← reqStr kvs "title"
      let d ← reqStr kvs "description"
      let pu ← optStr kvs "purpose"
      let ps ← optList Property.fromJson? kvs "props"
      let ls ← optList Link.fromJson? kvs "links"
      let rr ← optList ResponsibleRole.fromJson? kvs "responsible-roles"
      let pr ← optList Protocol.fromJson? kvs "protocols"
      let cis ← defList ControlImplementation.fromJson? kvs "control-implementations"
      let rem ← optStr kvs "remarks"
      pure ⟨u, ty, t, d, pu, ps, ls, rr, pr, cis, rem⟩
    else none
  | _ => none

/-- An `ImplementedRequirement` is canonical when none of its `exclude_if_false`
optional fields holds a present-but-empty list: such a value serializes identically to
an absent one and cannot be recovered on parse. -/
def ImplementedRequirement.canonical (ir : ImplementedRequirement) : Prop :=
  ir.set_parameters ≠ some [] ∧ ir.responsible_roles ≠ some [] ∧ ir.statements ≠ some []

instance (ir : ImplementedRequirement) : Decidable ir.canonical :=
  inferInstanceAs (Decidable (ir.set_parameters ≠ some [] ∧
    ir.responsible_roles ≠ some [] ∧ ir.statements ≠ some []))

/-- A `Component` is canonical when every implemented requirement below it is
canonical. -/
def Component.canonical (c : Component) : Prop :=
  ∀ ci ∈ c.control_implementations, ∀ ir ∈ ci.implemented_requirements, ir.canonical

instance (c : Component) : Decidable c.canonical :=
  inferInstanceAs (Decidable (∀ ci ∈ c.control_implementations,
    ∀ ir ∈ ci.implemented_requirements, ir.canonical))

/-! ## The project control-page aggregation (section 4.4) -/

/-- Modelled from the spec: the aggregation input — one component attached to a
project, in attachment order.  `status = 1` marks the private this-system component
(`Component.Status.SYSTEM` in the persistence layer, which is not under `src/`);
`oscal` is the component document parsed from `component_json`. -/
structure AttachedComponent where
  title : String
  status : Nat
  oscal : Component
deriving DecidableEq

/-- Whether a component declares the control as implemented for the catalog version:
the `Component.get_control` lookup embedded from `component.py` succeeds. -/
def implementsControl (c : Component) (control_id catalog_version : String) : Bool :=
  (c.get_control control_id catalog_version).isOk

/-- Modelled from the spec (section 4.4 — the aggregation view of the projects app is
not under `src/`): for every attached non-private component attempt
`Component.get_control` (embedded above from `component.py`); a per-component miss
(`ImplementationNotFound` / `RequirementNotFound`, both `KeyError` lookups) is
swallowed and the component is skipped; the survivors form the inherited bucket keyed
by component title, in attachment order. -/
def aggregateInherited (attached : List AttachedComponent) (control_id : String)
    (catalog_version : String) : List (String × ImplementedRequirement) :=
  attached.filterMap (fun ac =>
    if ac.status = 1 then none
    else
      match ac.oscal.get_control control_id catalog_version with
      | Except.ok req => some (ac.title, req)
      | Except.error _ => none)

/-! ## String helpers for `OscalSSP` (`src/projects/downloads.py`)

Python string methods are embedded as character-list functions so that they evaluate
inside the kernel.  The embedded `str.lower` / `str.upper` cover the ASCII range, which
is what the role-title derivation manipulates. -/

/-- ASCII lowercasing of one character (`str.lower`). -/
def lowerChar : Char → Char
  | 'A' => 'a'
  | 'B' => 'b'
  | 'C' => 'c'
  | 'D' => 'd'
  | 'E' => 'e'
  | 'F' => 'f'
  | 'G' => 'g'
  | 'H' => 'h'
  | 'I' => 'i'
  | 'J' => 'j'
  | 'K' => 'k'
  | 'L' => 'l'
  | 'M' => 'm'
  | 'N' => 'n'
  | 'O' => 'o'
  | 'P' => 'p'
  | 'Q' => 'q'
  | 'R' => 'r'
  | 'S' => 's'
  | 'T' => 't'
  | 'U' => 'u'
  | 'V' => 'v'
  | 'W' => 'w'
  | 'X' => 'x'
  | 'Y' => 'y'
  | 'Z' => 'z'
  | c => c

/-- ASCII uppercasing of one character (`str.upper`). -/
def upperChar : Char → Char
  | 'a' => 'A'
  | 'b' => 'B'
  | 'c' => 'C'
  | 'd' => 'D'
  | 'e' => 'E'
  | 'f' => 'F'
  | 'g' => 'G'
  | 'h' => 'H'
  | 'i' => 'I'
  | 'j' => 'J'
  | 'k' => 'K'
  | 'l' => 'L'
  | 'm' => 'M'
  | 'n' => 'N'
  | 'o' => 'O'
  | 'p' => 'P'
  | 'q' => 'Q'
  | 'r' => 'R'
  | 's' => 'S'
  | 't' => 'T'
  | 'u' => 'U'
  | 'v' => 'V'
  | 'w' => 'W'
  | 'x' => 'X'
  | 'y' => 'Y'
  | 'z' => 'Z'
  | c => c

/-- `title.lower()`. -/
def pyLower (s : String) : String := String.mk (s.data.map lowerChar)

/-- `short_name.upper()`. -/
def pyUpper (s : String) : String := String.mk (s.data.map upperChar)

/-- `title.replace(" ", "-")` — a single-character replacement is a character map. -/
def pyReplaceSpaceHyphen (s : String) : String :=
  String.mk (s.data.map (fun c => if c = ' ' then '-' else c))

/-- `title.strip()`: drop whitespace from both ends. -/
def pyStrip (s : String) : String :=
  String.mk (((s.data.dropWhile Char.isWhitespace).reverse.dropWhile
    Char.isWhitespace).reverse)

/-- Characters before the first unescaped close parenthesis, if one occurs
(the non-greedy `(.*?)\)` tail of the role abbreviation pattern). -/
def takeUntilClose : List Char → Option (List Char)
  | [] => none
  | ')' :: _ => some []
  | c :: rest => (takeUntilClose rest).map (fun g => c :: g)

/-- The first group of `re.search` with pattern backslash-open-paren `(.*?)`
backslash-close-paren: the regex engine matches at the first open parenthesis that is
followed by a close parenthesis, and the non-greedy group stops at the first close
parenthesis after it.  (If the first open parenthesis has no later close parenthesis
then no later position can match either, since any close parenthesis after a later
position also lies after the first.) -/
def parenGroup : List Char → Option (List Char)
  | [] => none
  | '(' :: rest => takeUntilClose rest
  | _ :: rest => parenGroup rest

/-- `key.find(" (")`: index of the first occurrence of space-open-paren, `-1` when
absent. -/
def pyFindSpaceParen : List Char → Int
  | ' ' :: '(' :: _ => 0
  | _ :: rest =>
    let r := pyFindSpaceParen rest
    if r = -1 then -1 else r + 1
  | [] => -1

/-- Python slicing `key[:k]` for an int produced by `str.find`: a negative index counts
from the end of the string (clamping at zero). -/
def pySliceTo (s : String) (k : Int) : String :=
  if k < 0 then String.mk (s.data.take (s.data.length - (-k).toNat))
  else String.mk (s.data.take k.toNat)

/-- Whitespace-run splitting of `title.split()`: maximal groups of non-whitespace
characters. -/
def splitWsAux : List Char → List Char → List (List Char)
  | [], [] => []
  | [], acc => [acc.reverse]
  | c :: rest, acc =>
    if c.isWhitespace then
      match acc with
      | [] => splitWsAux rest []
      | _ :: _ => acc.reverse :: splitWsAux rest []
    else splitWsAux rest (c :: acc)

/-- `"".join(word[0] for word in title.split())`: the words produced by `split()` are
nonempty, so taking each first character is total. -/
def initialsOf (s : String) : String :=
  String.mk ((splitWsAux s.data []).filterMap List.head?)

/-- The per-key title / short-name derivation of `OscalSSP.set_roles`: when the
stakeholder key contains a parenthesized abbreviation, the short name is the text of
the first group and the title is `key[:key.find(" (")]`; otherwise the title is the key
itself and the short name concatenates the first letter of each word. -/
def deriveTitleShort (key : String) : String × String :=
  match parenGroup key.data with
  | some grp => (pySliceTo key (pyFindSpaceParen key.data), String.mk grp)
  | none => (key, initialsOf key)

/-! ## The SSP assembly model (`src/projects/downloads.py`)

The `blueprintapi/oscal/ssp.py` model classes are not under `src/`; the structures
below are modelled from the spec with exactly the fields `OscalSSP` populates.  Fresh
`uuid4` values are drawn from an explicit supply `gen : Nat → Nat` read at an
incrementing counter; `uuid5` is a deterministic digest of its name argument. -/

/-- Modelled from the spec: `Role` from `blueprintapi/oscal/ssp.py` (not under
`src/`), with the fields `OscalSSP.set_roles` populates. -/
structure RoleSSP where
  id : String
  title : String
  short_name : String
deriving DecidableEq

/-- Modelled from the spec: `User` from `blueprintapi/oscal/ssp.py` (not under
`src/`), with the fields `OscalSSP.set_roles` populates. -/
structure UserSSP where
  role_ids : List String
  title : String
  short_name : String
  props : List Property
deriving DecidableEq

/-- One stakeholder dict item from the `extras` payload: the key is the role title
text, the value carries a props name/value pair. -/
structure StakeholderEntry where
  key : String
  prop_name : String
  prop_value : String
deriving DecidableEq

/-- Modelled from the spec: one stakeholder dict of `extras["stakeholders"]`; items
iterate in insertion order. -/
structure Stakeholder where
  items : List StakeholderEntry
deriving DecidableEq

/-- The inner `for key, value in stakeholder.items()` loop of `set_roles`: each item
overwrites the running title / short-name pair and the running property. -/
def stakeholderFold (items : List StakeholderEntry) (title short : String)
    (properties : Option Property) : String × String × Option Property :=
  match items with
  | [] => (title, short, properties)
  | e :: rest =>
    let ts := deriveTitleShort e.key
    stakeholderFold rest ts.1 ts.2 (some ⟨e.prop_name, e.prop_value⟩)

/-- The outer loop of `OscalSSP.set_roles`: one `User` and one `Role` are appended per
stakeholder whose derived title is nonempty and whose role id is not already taken;
the `Role` short name is uppercased and its title stripped.  `properties` is
initialized once before the loop and threads across stakeholders; an appended user
always follows at least one processed item, so its props list holds the last item's
property. -/
def setRolesLoop (stakeholders : List Stakeholder) (ids : List String)
    (users : List UserSSP) (roles : List RoleSSP) (properties : Option Property) :
    List UserSSP × List RoleSSP :=
  match stakeholders with
  | [] => (users, roles)
  | st :: rest =>
    let r := stakeholderFold st.items "" "" properties
    let title := r.1
    let short := r.2.1
    let props2 := r.2.2
    let role_id := pyLower (pyReplaceSpaceHyphen title)
    if title ≠ "" ∧ role_id ∉ ids then
      setRolesLoop rest (ids ++ [role_id])
        (users ++ [⟨[role_id], title, short, props2.toList⟩])
        (roles ++ [⟨role_id, pyStrip title, pyUpper short⟩]) props2
    else
      setRolesLoop rest ids users roles props2

/-- Modelled from the spec: a component row attached to a project, as consumed by
`OscalSSP` — title, type, description and status come from the persistence layer
(`components/models.py`, not under `src/`), `controls` is its list of implemented
control ids, and `control_data` is the `component_json` control table that
`ComponentTools` reads: (control id, optional narrative description) in document
order. -/
structure ProjComponent where
  title : String
  type : String
  description : String
  status : Nat
  controls : List String
  control_data : List (String × Option String)
deriving DecidableEq

/-- Modelled from the spec: `ComponentTools.get_control_by_id` from
`components/componentio.py` (not under `src/`): the control entries of the component
document whose control id matches, in document order. -/
def get_control_by_id (control_data : List (String × Option String))
    (control_id : String) : List (String × Option String) :=
  control_data.filter (fun entry => entry.1 == control_id)

/-- Modelled from the spec: the project snapshot `OscalSSP` consumes — title, acronym,
impact level, the catalog source URI, the ordered attached components, and the ordered
tracked control ids. -/
structure Project where
  title : String
  acronym : String
  impact_level : String
  catalog_source : String
  components : List ProjComponent
  controls : List String
deriving DecidableEq

/-- Modelled from the spec: `uuid.uuid5(uuid.NAMESPACE_OID, title)` is a deterministic
name-based digest of the title (the same title always yields the same UUID); it is
modelled as a concrete deterministic digest. -/
def uuid5_oid (title : String) : Nat :=
  title.data.foldl (fun h c => h * 31 + c.toNat) 5381

/-- Modelled from the spec: `SystemId` with the fields `get_system_characteristics`
populates. -/
structure SystemIdSSP where
  id : Nat
  identifier_type : String
deriving DecidableEq

/-- Modelled from the spec: `Impact` with the field `get_information_type`
populates. -/
structure ImpactSSP where
  base : String
deriving DecidableEq

/-- Modelled from the spec: `InformationType` with the fields `get_information_type`
populates. -/
structure InformationTypeSSP where
  title : String
  description : String
  confidentiality_impact : ImpactSSP
  integrity_impact : ImpactSSP
  availability_impact : ImpactSSP
deriving DecidableEq

/-- Modelled from the spec: `SecurityImpactLevel` with the fields `get_impact_level`
populates. -/
structure SecurityImpactLevelSSP where
  security_objective_confidentiality : String
  security_objective_availability : String
  security_objective_integrity : String
deriving DecidableEq

/-- Modelled from the spec: `SystemStatus`. -/
structure SystemStatusSSP where
  state : String
deriving DecidableEq

/-- Modelled from the spec: `NetworkDiagram`. -/
structure NetworkDiagramSSP where
  description : String
deriving DecidableEq

/-- Modelled from the spec: `SystemCharacteristics` with the fields
`get_system_characteristics` populates. -/
structure SystemCharacteristicsSSP where
  system_ids : List SystemIdSSP
  system_name : String
  description : String
  security_sensitivity_level : String
  information_types : List InformationTypeSSP
  security_impact_level : SecurityImpactLevelSSP
  authorization_boundary : NetworkDiagramSSP
  status : SystemStatusSSP
deriving DecidableEq

/-- Modelled from the spec: the SSP `Component` from `blueprintapi/oscal/ssp.py` with
the fields `add_components` populates; the `uuid` is a fresh `uuid4` default. -/
structure ComponentSSP where
  uuid : Nat
  title : String
  type : String
  description : String
  status : SystemStatusSSP
deriving DecidableEq

/-- Modelled from the spec: the SSP `ByComponent` with the fields
`add_implemented_requirements` populates; `description` is `ctrl[0].get("description")`
(an absent key reads as `None`). -/
structure ByComponentSSP where
  uuid : Nat
  component_uuid : Nat
  description : Option String
deriving DecidableEq

/-- Modelled from the spec: the SSP `ImplementedRequirement` with the fields
`add_implemented_requirements` populates. -/
structure ImplementedRequirementSSP where
  uuid : Nat
  control_id : String
  by_components : List ByComponentSSP
deriving DecidableEq

/-- Modelled from the spec: the SSP `ControlImplementation` with the fields
`add_implemented_requirements` populates. -/
structure ControlImplementationSSP where
  description : String
  implemented_requirements : List ImplementedRequirementSSP
deriving DecidableEq

/-- Modelled from the spec: `SystemImplementation` (users plus components). -/
structure SystemImplementationSSP where
  users : List UserSSP
  components : List ComponentSSP
deriving DecidableEq

/-- Modelled from the spec: `Metadata` with the fields `set_metadata` / `set_roles`
populate. -/
structure MetadataSSP where
  title : String
  version : String
  oscal_version : String
  roles : List RoleSSP
deriving DecidableEq

/-- Modelled from the spec: `ImportProfile`. -/
structure ImportProfileSSP where
  href : String
deriving DecidableEq

/-- Modelled from the spec: a `BackMatter` resource. -/
structure ResourceSSP where
  title : String
deriving DecidableEq

/-- Modelled from the spec: `BackMatter`. -/
structure BackMatterSSP where
  resources : List ResourceSSP
deriving DecidableEq

/-- Modelled from the spec: the assembled `SystemSecurityPlan` root. -/
structure SystemSecurityPlanSSP where
  metadata : MetadataSSP
  import_profile : ImportProfileSSP
  system_characteristics : SystemCharacteristicsSSP
  system_implementation : SystemImplementationSSP
  control_implementation : ControlImplementationSSP
  back_matter : BackMatterSSP
deriving DecidableEq

/-- Python dict lookup over the insertion-ordered (key, value) list of
`component_ref`: a later assignment to the same key overwrites an earlier one, so the
last binding wins. -/
def dictGet (entries : List (String × Nat)) (key : String) : Option Nat :=
  (entries.reverse.find? (fun e => e.1 == key)).map (fun e => e.2)

/-- `OscalSSP.add_components`: one SSP component per attached project component (the
private `status == 1` row becomes the distinguished this-system component), each with
a fresh uuid; `component_ref` maps the row title to that uuid. -/
def componentsLoop (components : List ProjComponent) (project_title : String)
    (gen : Nat → Nat) (n : Nat) :
    List ComponentSSP × List (String × Nat) × Nat :=
  match components with
  | [] => ([], [], n)
  | pc :: rest =>
    let u := gen n
    let cpt : ComponentSSP :=
      if pc.status = 1 then ⟨u, "This System", "this-system", project_title, ⟨"operational"⟩⟩
      else ⟨u, pc.title, pc.type, pc.description, ⟨"operational"⟩⟩
    let r := componentsLoop rest project_title gen (n + 1)
    (cpt :: r.1, (pc.title, u) :: r.2.1, r.2.2)

/-- The inner component loop of `OscalSSP.add_implemented_requirements` for one tracked
control: Python mutates one `ImplementedRequirement` object and appends a reference to
it once per implementing component, so the loop yields the final object state together
with how many references were appended (plus the advanced uuid counter). -/
def byComponentLoop (components : List ProjComponent) (control_id : String)
    (ref : List (String × Nat)) (gen : Nat → Nat) (ir : ImplementedRequirementSSP)
    (n : Nat) : ImplementedRequirementSSP × Nat × Nat :=
  match components with
  | [] => (ir, 0, n)
  | pc :: rest =>
    if control_id ∈ pc.controls then
      let u := gen n
      let byc : ByComponentSSP :=
        ⟨u, (dictGet ref pc.title).getD 0,
          ((get_control_by_id pc.control_data control_id).head?).bind (fun e => e.2)⟩
      let ir2 := { ir with by_components := ir.by_components ++ [byc] }
      let r := byComponentLoop rest control_id ref gen ir2 (n + 1)
      (r.1, r.2.1 + 1, r.2.2)
    else
      byComponentLoop rest control_id ref gen ir n

/-- `OscalSSP.add_implemented_requirements`: for each tracked control a fresh
`ImplementedRequirement` is created, and — because the append statement sits inside the
inner component loop — a reference to that same object is appended once per component
that implements the control (all references alias the final object state, modelled by
`List.replicate`); a control no attached component implements is never appended. -/
def requirementsLoop (controls : List String) (components : List ProjComponent)
    (ref : List (String × Nat)) (gen : Nat → Nat) (n : Nat) :
    List ImplementedRequirementSSP × Nat :=
  match controls with
  | [] => ([], n)
  | cid :: rest =>
    let irU := gen n
    let r := byComponentLoop components cid ref gen ⟨irU, cid, []⟩ (n + 1)
    let tail := requirementsLoop rest components ref gen r.2.2
    (List.replicate r.2.1 r.1 ++ tail.1, tail.2)

/-- `OscalSSP.get_system_characteristics`: the system id is
`uuid5(NAMESPACE_OID, project title)` — deterministic, not freshly generated. -/
def get_system_characteristics (p : Project) : SystemCharacteristicsSSP :=
  let fips := "fips-199-" ++ p.impact_level
  { system_ids := [⟨uuid5_oid p.title, "https://ietf.org/rfc/rfc4122"⟩]
    system_name := p.title
    description := p.acronym
    security_sensitivity_level := p.impact_level
    information_types := [⟨p.title, p.title, ⟨fips⟩, ⟨fips⟩, ⟨fips⟩⟩]
    security_impact_level := ⟨fips, fips, fips⟩
    authorization_boundary := ⟨"INSERT AUTHORIZATION BOUNDARY"⟩
    status := ⟨"operational"⟩ }

/-- `OscalSSP.get_ssp` over a project snapshot: runs the `__init__` pipeline
(`set_metadata`, `set_roles`, `add_components`, `add_implemented_requirements`) and
assembles the root document.  `gen` supplies the fresh `uuid4` values in generation
order. -/
def get_ssp (p : Project) (stakeholders : List Stakeholder) (gen : Nat → Nat) :
    SystemSecurityPlanSSP :=
  let ur := setRolesLoop stakeholders [] [] [] none
  let comps := componentsLoop p.components p.title gen 0
  let reqs := requirementsLoop p.controls p.components comps.2.1 gen comps.2.2
  { metadata := ⟨p.title, "0.1", "1.0.2", ur.2⟩
    import_profile := ⟨p.catalog_source⟩
    system_characteristics := get_system_characteristics p
    system_implementation := ⟨ur.1, comps.1⟩
    control_implementation := ⟨"[INSERT SYSTEM DESCRIPTION HERE]", reqs.1⟩
    back_matter := ⟨[⟨"Test Resource"⟩]⟩ }

/-- Zero the fresh uuid of a by-component entry (both its own uuid and the component
reference uuid it copies). -/
def stripBy (b : ByComponentSSP) : ByComponentSSP := ⟨0, 0, b.description⟩

/-- Zero the fresh uuids of an SSP implemented requirement. -/
def stripIR (ir : ImplementedRequirementSSP) : ImplementedRequirementSSP :=
  ⟨0, ir.control_id, ir.by_components.map stripBy⟩

/-- Zero the fresh uuid of an SSP component. -/
def stripComp (c : ComponentSSP) : ComponentSSP :=
  ⟨0, c.title, c.type, c.description, c.status⟩

/-- Erase every freshly generated uuid of an assembled SSP, keeping all other
content (the `uuid5`-derived system id included). -/
def stripSSP (s : SystemSecurityPlanSSP) : SystemSecurityPlanSSP :=
  { s with
    system_implementation :=
      ⟨s.system_implementation.users, s.system_implementation.components.map stripComp⟩
    control_implementation :=
      ⟨s.control_implementation.description,
        s.control_implementation.implemented_requirements.map stripIR⟩ }

deriving instance DecidableEq for Except

/-! ## Concrete example values -/

/-- Example statement for the duplicate-key scenario. -/
def stmtA : Statement := { statement_id := "ac-1_smt.a", uuid := "u-1", description := "first" }

/-- A second statement with the same `statement_id`. -/
def stmtA2 : Statement := { statement_id := "ac-1_smt.a", uuid := "u-2", description := "second" }

/-- Example requirement the duplicate-key scenario starts from. -/
def irC2 : ImplementedRequirement := { uuid := "u-ir", control_id := "ac-1", description := "d" }

/-- Example set-parameter. -/
def paramA : Parameter := ⟨"prm_1", ["x"]⟩

/-- A second set-parameter with the same `param_id`. -/
def paramA2 : Parameter := ⟨"prm_1", ["y"]⟩

/-- Example property. -/
def propA : Property := ⟨"provider", "yes"⟩

/-- A second property with the same name. -/
def propA2 : Property := ⟨"provider", "no"⟩

/-- Example requirement held by the implementation tagged with the empty string. -/
def irR1 : ImplementedRequirement := { uuid := "r1", control_id := "ac-1", description := "one" }

/-- Example requirement held by the implementation tagged `NIST_SP80053R5`. -/
def irR2 : ImplementedRequirement := { uuid := "r2", control_id := "ac-2", description := "two" }

/-- A control implementation whose version tag is the empty string. -/
def ciEmptyTag : ControlImplementation :=
  { uuid := "ci1", source := "s", description := "", implemented_requirements := [irR1] }

/-- A control implementation tagged `NIST_SP80053R5`. -/
def ciV5 : ControlImplementation :=
  { uuid := "ci2", source := "s", description := "NIST_SP80053R5",
    implemented_requirements := [irR2] }

/-- A component carrying both implementations above. -/
def cW5 : Component :=
  { uuid := "c1", title := "t", description := "d",
    control_implementations := [ciEmptyTag, ciV5] }

/-! ## Theorems -/

/-- Claim C2: the spec states that `add_statement`, `add_parameter` and `add_property`
fail with a `DuplicateKey` error when the key being added already exists, with the first
entry remaining attached.  The code cannot do so: its membership tests compare the key
string against whole model objects, which never match, so every add succeeds and a
duplicate-keyed second entry is silently appended after the first.  This theorem
evaluates the embedded mutators: no call ever returns an error, and at the concrete
failing inputs the second add with an equal key succeeds and leaves both entries
attached. -/
theorem duplicate_key_checks_never_fire :
    (∀ (ir : ImplementedRequirement) (s : Statement), (ir.add_statement s).isOk = true) ∧
    (∀ (ir : ImplementedRequirement) (p : Parameter), (ir.add_parameter p).isOk = true) ∧
    (∀ (ir : ImplementedRequirement) (p : Property), (ir.add_property p).isOk = true) ∧
    stmtA2.statement_id = stmtA.statement_id ∧
    ((irC2.add_statement stmtA).bind (fun ir1 => ir1.add_statement stmtA2) =
      Except.ok { irC2 with statements := some [stmtA, stmtA2] }) ∧
    ((irC2.add_parameter paramA).bind (fun ir1 => ir1.add_parameter paramA2) =
      Except.ok { irC2 with set_parameters := some [paramA, paramA2] }) ∧
    ((irC2.add_property propA).bind (fun ir1 => ir1.add_property propA2) =
      Except.ok { irC2 with props := some [propA, propA2] }) := by
  refine ⟨?_, ?_, ?_, by decide, by decide, by decide, by decide⟩
  · intro ir s
    by_cases hf : optListFalsy ir.statements <;>
      simp [ImplementedRequirement.add_statement, statementKeyMatches, hf, Except.isOk,
        Except.toBool]
  · intro ir p
    by_cases hf : optListFalsy ir.set_parameters <;>
      simp [ImplementedRequirement.add_parameter, parameterKeyMatches, hf, Except.isOk,
        Except.toBool]
  · intro ir p
    by_cases hf : optListFalsy ir.props <;>
      simp [ImplementedRequirement.add_property, propertyKeyMatches, hf, Except.isOk,
        Except.toBool]

/-- The version lookup succeeds with a given implementation exactly when the underlying
first-match scan finds it. -/
theorem gci_eq_ok_iff (c : Component) (v : String) (imp : ControlImplementation) :
    c.get_control_implementation v = Except.ok imp ↔
      c.control_implementations.find? (fun i => i.description == v) = some imp := by
  unfold Component.get_control_implementation
  cases hf : c.control_implementations.find? (fun i => i.description == v) with
  | some i => simp
  | none => simp

/-- The version lookup fails with the implementation-not-found message exactly when the
first-match scan finds nothing. -/
theorem gci_eq_error_iff (c : Component) (v : String) :
    (c.get_control_implementation v =
      Except.error ("Provided catalog version is not in control implementations: " ++ v)) ↔
      c.control_implementations.find? (fun i => i.description == v) = none := by
  unfold Component.get_control_implementation
  cases hf : c.control_implementations.find? (fun i => i.description == v) with
  | some i => simp
  | none => simp

/-- Claim C4: `get_control_implementation` returns the first control implementation in
list order whose description equals the requested version exactly (duplicates: the
first match wins, and a match always yields a successful result, never an error); when
no implementation matches, the call fails with the implementation-not-found error
naming the version. -/
theorem get_control_implementation_spec (c : Component) (v : String) :
    (∀ imp, c.get_control_implementation v = Except.ok imp ↔
      imp.description = v ∧
      ∃ pre post, c.control_implementations = pre ++ imp :: post ∧
        ∀ x ∈ pre, x.description ≠ v) ∧
    (c.get_control_implementation v =
        Except.error ("Provided catalog version is not in control implementations: " ++ v) ↔
      ∀ imp ∈ c.control_implementations, imp.description ≠ v) := by
  constructor
  · intro imp
    rw [gci_eq_ok_iff, List.find?_eq_some]
    constructor
    · rintro ⟨h1, pre, post, heq, hpre⟩
      exact ⟨by simpa using h1, pre, post, heq, fun x hx => by simpa using hpre x hx⟩
    · rintro ⟨h1, pre, post, heq, hpre⟩
      exact ⟨by simpa using h1, pre, post, heq, fun x hx => by simpa using hpre x hx⟩
  · rw [gci_eq_error_iff, List.find?_eq_none]
    simp

/-- Concatenation of a list of lists expressed as a right fold of appends. -/
theorem flatten_eq_foldr {α : Type} (ls : List (List α)) :
    ls.flatten = ls.foldr (fun l acc => l ++ acc) [] := by
  induction ls with
  | nil => rfl
  | cons l rest ih => simp [List.flatten, ih]

/-- Claim C5 (amended): without a version `controls` returns the concatenation of every
implementation's requirements, in implementation order then requirement order; with a
NON-EMPTY version it returns exactly the requirements of the implementation that
version resolves to; the empty string, being falsy in Python, is treated like an absent
version and flattens everything. -/
theorem controls_spec (c : Component) :
    (c.controls none =
      Except.ok ((c.control_implementations.map
        (fun implementation => implementation.implemented_requirements)).foldr
        (fun reqs acc => reqs ++ acc) [])) ∧
    (∀ v imp, v ≠ "" → c.get_control_implementation v = Except.ok imp →
      c.controls (some v) = Except.ok imp.implemented_requirements) ∧
    c.controls (some "") = c.controls none := by
  refine ⟨?_, ?_, rfl⟩
  · simp [Component.controls, flatten_eq_foldr]
  · intro v imp hv himp
    simp [Component.controls, hv, himp, Except.map]

/-- Claim C5 witness: the version branch applied at a concrete component. -/
theorem controls_spec_witness :
    cW5.controls (some "NIST_SP80053R5") = Except.ok ciV5.implemented_requirements :=
  (controls_spec cW5).2.1 "NIST_SP80053R5" ciV5 (by decide) (by decide)

/-- Claim C5 counterexample: the claim as stated fails at the empty version string —
`cW5` carries an implementation whose version tag is the empty string (holding exactly
`[irR1]`), the lookup `get_control_implementation ""` resolves to it, yet
`controls (some "")` does not return that implementation's requirements (it flattens
every implementation instead). -/
theorem controls_empty_version_counterexample :
    cW5.get_control_implementation "" = Except.ok ciEmptyTag ∧
    ciEmptyTag.implemented_requirements = [irR1] ∧
    cW5.controls (some "") ≠ Except.ok ciEmptyTag.implemented_requirements := by decide

/-- Claim C9: `control_ids` contains a control id exactly when some implemented
requirement of some control implementation carries it; unlike `controls()` it never
contains duplicates — each occurring id appears exactly once and absent ids zero
times.  (The Python set iteration order is unspecified; the embedded order is one
deduplication order.) -/
theorem control_ids_spec (c : Component) (cid : String) :
    (cid ∈ c.control_ids ↔
      ∃ ci ∈ c.control_implementations, ∃ ir ∈ ci.implemented_requirements,
        ir.control_id = cid) ∧
    c.control_ids.Nodup ∧
    (cid ∈ c.control_ids → c.control_ids.count cid = 1) ∧
    (cid ∉ c.control_ids → c.control_ids.count cid = 0) := by
  refine ⟨?_, ?_, ?_, ?_⟩
  · unfold Component.control_ids
    rw [List.mem_dedup]
    simp only [List.mem_map, List.mem_flatten]
    constructor
    · rintro ⟨ir, ⟨reqs, ⟨⟨ci, hci, rfl⟩, hir⟩⟩, rfl⟩
      exact ⟨ci, hci, ir, hir, rfl⟩
    · rintro ⟨ci, hci, ir, hir, rfl⟩
      exact ⟨ir, ⟨ci.implemented_requirements, ⟨⟨ci, hci, rfl⟩, hir⟩⟩, rfl⟩
  · exact List.nodup_dedup _
  · intro h
    exact List.count_eq_one_of_mem (List.nodup_dedup _) h
  · intro h
    exact List.count_eq_zero_of_not_mem h

/-- Claim C9 witness: the count facts applied to a concrete component. -/
theorem control_ids_spec_witness :
    "ac-1" ∈ cW5.control_ids ∧ cW5.control_ids.count "ac-1" = 1 :=
  ⟨by decide, (control_ids_spec cW5 "ac-1").2.2.1 (by decide)⟩

/-- Claim C10: `catalog_versions` never raises — implementations whose description does
not parse as a `Catalog.Version` are silently skipped — and the result is the
deduplicated collection of exactly the versions that do parse; in particular it is
empty exactly when no implementation carries a recognized tag. -/
theorem catalog_versions_spec (c : Component) (ver : Catalog.Version) :
    (ver ∈ c.catalog_versions ↔
      ∃ item ∈ c.control_implementations,
        Catalog.Version.ofDescription item.description = some ver) ∧
    c.catalog_versions.Nodup ∧
    (c.catalog_versions = [] ↔
      ∀ item ∈ c.control_implementations,
        Catalog.Version.ofDescription item.description = none) := by
  refine ⟨?_, List.nodup_dedup _, ?_⟩
  · unfold Component.catalog_versions
    rw [List.mem_dedup]
    simp
  · unfold Component.catalog_versions
    rw [List.dedup_eq_nil]
    exact List.filterMap_eq_nil_iff

/-- An OSCAL component implementing `ac-2` for `NIST_SP80053R5` under a given title. -/
def oscalImplementing (t : String) : Component :=
  { uuid := "u-" ++ t, title := t, description := t,
    control_implementations := [⟨"ci-" ++ t, "s", "NIST_SP80053R5", none, none,
      [{ uuid := "ir-" ++ t, control_id := "ac-2", description := t ++ " narrative" }]⟩] }

/-- An OSCAL component implementing nothing for `NIST_SP80053R5`. -/
def oscalNotImplementing (t : String) : Component :=
  { uuid := "u-" ++ t, title := t, description := t,
    control_implementations := [⟨"ci-" ++ t, "s", "NIST_SP80053R5", none, none, []⟩] }

/-- The attached set of the aggregation scenario: A and C implement the control, B does
not. -/
def attachedABC : List AttachedComponent :=
  [⟨"A", 0, oscalImplementing "A"⟩, ⟨"B", 0, oscalNotImplementing "B"⟩,
    ⟨"C", 0, oscalImplementing "C"⟩]

/-- Claim C6: per-component misses are swallowed — the aggregation is a total function
over the attached set, and a component on which `get_control` fails is simply absent.
The inherited bucket lists exactly the attached non-private components whose
`get_control` succeeds, in attachment order, each paired with its requirement; at the
concrete A/B/C attachment where only A and C implement the control, the bucket is
exactly A then C. -/
theorem aggregation_inherited_spec (attached : List AttachedComponent)
    (control_id catalog_version : String) :
    ((aggregateInherited attached control_id catalog_version).map Prod.fst =
      (attached.filter (fun ac => !(ac.status == 1) &&
        implementsControl ac.oscal control_id catalog_version)).map
        (fun ac => ac.title)) ∧
    (∀ t req, (t, req) ∈ aggregateInherited attached control_id catalog_version ↔
      ∃ ac ∈ attached, ac.status ≠ 1 ∧ ac.title = t ∧
        ac.oscal.get_control control_id catalog_version = Except.ok req) ∧
    ((aggregateInherited attachedABC "ac-2" "NIST_SP80053R5").map Prod.fst = ["A", "C"]) := by
  refine ⟨?_, ?_, by decide⟩
  · induction attached with
    | nil => rfl
    | cons ac rest ih =>
      by_cases hs : ac.status = 1
      · simpa [aggregateInherited, List.filterMap_cons, List.filter_cons, hs,
          implementsControl] using ih
      · cases hgc : ac.oscal.get_control control_id catalog_version with
        | ok req =>
          simpa [aggregateInherited, List.filterMap_cons, List.filter_cons, hs,
            implementsControl, hgc, Except.isOk, Except.toBool] using ih
        | error e =>
          simpa [aggregateInherited, List.filterMap_cons, List.filter_cons, hs,
            implementsControl, hgc, Except.isOk, Except.toBool] using ih
  · intro t req
    rw [aggregateInherited, List.mem_filterMap]
    constructor
    · rintro ⟨ac, hmem, hf⟩
      by_cases hs : ac.status = 1
      · simp [hs] at hf
      · cases hgc : ac.oscal.get_control control_id catalog_version with
        | ok r =>
          rw [if_neg hs, hgc] at hf
          simp only [Option.some.injEq, Prod.mk.injEq] at hf
          exact ⟨ac, hmem, hs, hf.1, by rw [hgc, hf.2]⟩
        | error e =>
          rw [if_neg hs, hgc] at hf
          exact absurd hf (by simp)
    · rintro ⟨ac, hmem, hs, rfl, hgc⟩
      exact ⟨ac, hmem, by simp [hs, hgc]⟩

/-- The ASCII lowercasing of a non-space character is not the space character. -/
theorem lowerChar_ne_space (c : Char) (h : c ≠ ' ') : lowerChar c ≠ ' ' := by
  unfold lowerChar
  split <;> first | decide | exact h

/-- Lowercasing commutes with replacing spaces by hyphens, so the id computed by the
source (`title.replace(" ", "-").lower()`) equals the claim's reading (title
lowercased, then spaces replaced by hyphens). -/
theorem lower_hyphen_comm (s : String) :
    pyLower (pyReplaceSpaceHyphen s) = pyReplaceSpaceHyphen (pyLower s) := by
  unfold pyLower pyReplaceSpaceHyphen
  have hfun : (lowerChar ∘ fun c => if c = ' ' then '-' else c) =
      ((fun c => if c = ' ' then '-' else c) ∘ lowerChar) := by
    funext c
    simp only [Function.comp_apply]
    by_cases hc : c = ' '
    · subst hc
      rfl
    · rw [if_neg hc, if_neg (lowerChar_ne_space c hc)]
  rw [List.map_map, List.map_map, hfun]

/-- Claim C8 (amended): a stakeholder entry with a nonempty derived title yields exactly
one Role whose id is the title lowercased with its spaces replaced by hyphens, and
whose short name is the UPPERCASED parenthesized-group text when the key contains one
(the title then being the text before the first " ("), else the UPPERCASED
concatenation of the first letter of each word. -/
theorem role_derivation_spec (key pn pv : String)
    (h : (deriveTitleShort key).1 ≠ "") :
    ((setRolesLoop [⟨[⟨key, pn, pv⟩]⟩] [] [] [] none).2 =
      [⟨pyReplaceSpaceHyphen (pyLower (deriveTitleShort key).1),
        pyStrip (deriveTitleShort key).1, pyUpper (deriveTitleShort key).2⟩]) ∧
    ((setRolesLoop [⟨[⟨key, pn, pv⟩]⟩] [] [] [] none).1 =
      [⟨[pyReplaceSpaceHyphen (pyLower (deriveTitleShort key).1)],
        (deriveTitleShort key).1, (deriveTitleShort key).2, [⟨pn, pv⟩]⟩]) ∧
    (∀ grp, parenGroup key.data = some grp →
      (deriveTitleShort key).2 = String.mk grp ∧
      (deriveTitleShort key).1 = pySliceTo key (pyFindSpaceParen key.data)) ∧
    (parenGroup key.data = none →
      (deriveTitleShort key).2 = initialsOf key ∧ (deriveTitleShort key).1 = key) := by
  refine ⟨?_, ?_, ?_, ?_⟩
  · simp [setRolesLoop, stakeholderFold, h, lower_hyphen_comm]
  · simp [setRolesLoop, stakeholderFold, h, lower_hyphen_comm, Option.toList]
  · intro grp hgrp
    simp [deriveTitleShort, hgrp]
  · intro hgrp
    simp [deriveTitleShort, hgrp]

/-- Claim C8 witness: the amended derivation at a concrete parenthesis-free key. -/
theorem role_derivation_spec_witness :
    (setRolesLoop [⟨[⟨"Program Manager", "n", "v"⟩]⟩] [] [] [] none).2 =
      [⟨pyReplaceSpaceHyphen (pyLower (deriveTitleShort "Program Manager").1),
        pyStrip (deriveTitleShort "Program Manager").1,
        pyUpper (deriveTitleShort "Program Manager").2⟩] :=
  (role_derivation_spec "Program Manager" "n" "v" (by decide)).1

/-- Claim C8 counterexample: for the stakeholder key "Chief Officer (CoO)" the source
uppercases the short name before storing it on the Role — the emitted Role short name
is "COO", not the parenthesized text "CoO" the claim states. -/
theorem role_short_name_counterexample :
    (setRolesLoop [⟨[⟨"Chief Officer (CoO)", "n", "v"⟩]⟩] [] [] [] none).2 =
      [⟨"chief-officer", "Chief Officer", "COO"⟩] ∧
    (deriveTitleShort "Chief Officer (CoO)").2 = "CoO" ∧
    ("COO" : String) ≠ "CoO" := by decide

/-- Project component A: implements `ac-1` with its own narrative. -/
def pcA : ProjComponent :=
  { title := "A", type := "software", description := "dA", status := 0,
    controls := ["ac-1"], control_data := [("ac-1", some "A narrative")] }

/-- Project component B: also implements `ac-1`. -/
def pcB : ProjComponent :=
  { title := "B", type := "software", description := "dB", status := 0,
    controls := ["ac-1"], control_data := [("ac-1", some "B narrative")] }

/-- Project component C: implements nothing. -/
def pcC : ProjComponent :=
  { title := "C", type := "software", description := "dC", status := 0,
    controls := [], control_data := [] }

/-- Claim C1 (code bug): because the append statement of
`add_implemented_requirements` sits inside the per-component loop, the emitted
requirement list carries one (aliased) entry per implementing component rather than
exactly one entry per tracked control: a control implemented by two components appears
twice (each copy already holding both ByComponent entries), and a tracked control no
component implements is missing entirely.  The one-implementer scenario of the spec
(two attached components, one implementing) does emit exactly one entry with one
ByComponent whose description is the component's narrative verbatim. -/
theorem ssp_requirement_emission_bug :
    ((requirementsLoop ["ac-1", "cm-6"] [pcA, pcB] [("A", 1), ("B", 2)]
        (fun n => n) 3).1.map
      (fun ir => (ir.control_id, ir.by_components.length)) = [("ac-1", 2), ("ac-1", 2)]) ∧
    ((requirementsLoop ["ac-1"] [pcA, pcC] [("A", 1), ("C", 2)]
        (fun n => n) 3).1.map
      (fun ir => (ir.control_id, ir.by_components.map (fun b => b.description))) =
      [("ac-1", [some "A narrative"])]) := by decide

/-- The uuid-stripped SSP component list is independent of the uuid supply and the
counter position. -/
theorem componentsLoop_strip (components : List ProjComponent) (t : String)
    (g1 g2 : Nat → Nat) (n1 n2 : Nat) :
    (componentsLoop components t g1 n1).1.map stripComp =
      (componentsLoop components t g2 n2).1.map stripComp := by
  induction components generalizing n1 n2 with
  | nil => rfl
  | cons pc rest ih =>
    by_cases hs : pc.status = 1 <;>
      simp [componentsLoop, hs, stripComp, ih (n1 + 1) (n2 + 1)]

/-- The uuid-stripped result and the appended-reference count of the inner by-component
loop are independent of the component-reference table, the uuid supply and the counter
position, given uuid-stripped-equal accumulators. -/
theorem byComponentLoop_strip (components : List ProjComponent) (cid : String)
    (ref1 ref2 : List (String × Nat)) (g1 g2 : Nat → Nat)
    (ir1 ir2 : ImplementedRequirementSSP) (n1 n2 : Nat)
    (hir : stripIR ir1 = stripIR ir2) :
    stripIR (byComponentLoop components cid ref1 g1 ir1 n1).1 =
      stripIR (byComponentLoop components cid ref2 g2 ir2 n2).1 ∧
    (byComponentLoop components cid ref1 g1 ir1 n1).2.1 =
      (byComponentLoop components cid ref2 g2 ir2 n2).2.1 := by
  induction components generalizing ir1 ir2 n1 n2 with
  | nil => exact ⟨hir, rfl⟩
  | cons pc rest ih =>
    by_cases hc : cid ∈ pc.controls
    · simp only [byComponentLoop, if_pos hc]
      have hinj : ir1.control_id = ir2.control_id ∧
          ir1.by_components.map stripBy = ir2.by_components.map stripBy := by
        have h2 := hir
        simp only [stripIR, ImplementedRequirementSSP.mk.injEq, true_and] at h2
        exact h2
      have hir2 : stripIR { ir1 with by_components := ir1.by_components ++
            [⟨g1 n1, (dictGet ref1 pc.title).getD 0,
              ((get_control_by_id pc.control_data cid).head?).bind (fun e => e.2)⟩] } =
          stripIR { ir2 with by_components := ir2.by_components ++
            [⟨g2 n2, (dictGet ref2 pc.title).getD 0,
              ((get_control_by_id pc.control_data cid).head?).bind (fun e => e.2)⟩] } := by
        simp [stripIR, stripBy, hinj.1, hinj.2]
      have h3 := ih _ _ (n1 + 1) (n2 + 1) hir2
      exact ⟨h3.1, by rw [h3.2]⟩
    · simp only [byComponentLoop, if_neg hc]
      exact ih _ _ n1 n2 hir

/-- The uuid-stripped emitted requirement list is independent of the reference table,
the uuid supply and the counter position. -/
theorem requirementsLoop_strip (controls : List String) (components : List ProjComponent)
    (ref1 ref2 : List (String × Nat)) (g1 g2 : Nat → Nat) (n1 n2 : Nat) :
    (requirementsLoop controls components ref1 g1 n1).1.map stripIR =
      (requirementsLoop controls components ref2 g2 n2).1.map stripIR := by
  induction controls generalizing n1 n2 with
  | nil => rfl
  | cons cid rest ih =>
    simp only [requirementsLoop]
    have h := byComponentLoop_strip components cid ref1 ref2 g1 g2
      ⟨g1 n1, cid, []⟩ ⟨g2 n2, cid, []⟩ (n1 + 1) (n2 + 1) (by simp [stripIR])
    rw [List.map_append, List.map_append, List.map_replicate, List.map_replicate,
      h.1, h.2, ih _ _]

/-- Claim C7: SSP assembly is deterministic up to the freshly generated uuids — two
runs of `get_ssp` over the same project snapshot and stakeholder extras agree exactly
after the fresh uuids are erased, whatever the two uuid supplies produce, and the
system identifier (the `uuid5` digest of the project title, which already carries its
value rather than drawing a fresh one) is identical across runs. -/
theorem get_ssp_deterministic (p : Project) (stakeholders : List Stakeholder)
    (g1 g2 : Nat → Nat) :
    stripSSP (get_ssp p stakeholders g1) = stripSSP (get_ssp p stakeholders g2) ∧
    (get_ssp p stakeholders g1).system_characteristics.system_ids =
      [⟨uuid5_oid p.title, "https://ietf.org/rfc/rfc4122"⟩] ∧
    (get_ssp p stakeholders g1).system_characteristics =
      (get_ssp p stakeholders g2).system_characteristics := by
  refine ⟨?_, rfl, rfl⟩
  unfold get_ssp stripSSP
  simp only [SystemSecurityPlanSSP.mk.injEq, SystemImplementationSSP.mk.injEq,
    ControlImplementationSSP.mk.injEq, and_true, true_and]
  exact ⟨componentsLoop_strip p.components p.title g1 g2 0 0,
    requirementsLoop_strip p.controls p.components _ _ g1 g2 _ _⟩

/-- An optional list that is not present-but-empty is either absent or nonempty. -/
theorem exclOpt_cases {α : Type} (o : Option (List α)) (h : o ≠ some []) :
    o = none ∨ ∃ x xs, o = some (x :: xs) := by
  match o with
  | none => exact Or.inl rfl
  | some [] => exact absurd rfl h
  | some (x :: xs) => exact Or.inr ⟨x, xs, rfl⟩

/-- Round trip of a JSON string list. -/
theorem parseList_str (l : List String) :
    parseList parseStr (l.map Json.str) = some l := by
  induction l with
  | nil => rfl
  | cons x xs ih => simp [parseList, parseStr, ih]

/-- Round trip of a `Property`. -/
theorem property_json_roundtrip (p : Property) : Property.fromJson? p.toJson = some p := by
  cases p
  simp [Property.toJson, Property.fromJson?, reqStr, Json.lookupKey]

/-- Elementwise round trip of a property list. -/
theorem parseList_property (l : List Property) :
    parseList Property.fromJson? (l.map Property.toJson) = some l := by
  induction l with
  | nil => rfl
  | cons x xs ih => simp [parseList, property_json_roundtrip, ih]

/-- Cons-shaped form of `parseList_property`. -/
theorem parseList_property_cons (x : Property) (xs : List Property) :
    parseList Property.fromJson? (Property.toJson x :: List.map Property.toJson xs) =
      some (x :: xs) :=
  parseList_property (x :: xs)

/-- Round trip of a `Link`. -/
theorem link_json_roundtrip (l : Link) : Link.fromJson? l.toJson = some l := by
  obtain ⟨h, t⟩ := l
  cases t <;> simp [Link.toJson, Link.fromJson?, reqStr, optStr, Json.lookupKey, optStrField]

/-- Elementwise round trip of a link list. -/
theorem parseList_link (l : List Link) :
    parseList Link.fromJson? (l.map Link.toJson) = some l := by
  induction l with
  | nil => rfl
  | cons x xs ih => simp [parseList, link_json_roundtrip, ih]

/-- Cons-shaped form of `parseList_link`. -/
theorem parseList_link_cons (x : Link) (xs : List Link) :
    parseList Link.fromJson? (Link.toJson x :: List.map Link.toJson xs) = some (x :: xs) :=
  parseList_link (x :: xs)

/-- Round trip of a `ResponsibleRole`. -/
theorem rrole_json_roundtrip (r : ResponsibleRole) :
    ResponsibleRole.fromJson? r.toJson = some r := by
  cases r
  simp [ResponsibleRole.toJson, ResponsibleRole.fromJson?, reqStr, Json.lookupKey]

/-- Elementwise round trip of a responsible-role list. -/
theorem parseList_rrole (l : List ResponsibleRole) :
    parseList ResponsibleRole.fromJson? (l.map ResponsibleRole.toJson) = some l := by
  induction l with
  | nil => rfl
  | cons x xs ih => simp [parseList, rrole_json_roundtrip, ih]

/-- Cons-shaped form of `parseList_rrole`. -/
theorem parseList_rrole_cons (x : ResponsibleRole) (xs : List ResponsibleRole) :
    parseList ResponsibleRole.fromJson?
      (ResponsibleRole.toJson x :: List.map ResponsibleRole.toJson xs) = some (x :: xs) :=
  parseList_rrole (x :: xs)

/-- Round trip of a `Parameter`. -/
theorem param_json_roundtrip (p : Parameter) : Parameter.fromJson? p.toJson = some p := by
  cases p
  simp [Parameter.toJson, Parameter.fromJson?, reqStr, Json.lookupKey, parseList_str]

/-- Elementwise round trip of a parameter list. -/
theorem parseList_param (l : List Parameter) :
    parseList Parameter.fromJson? (l.map Parameter.toJson) = some l := by
  induction l with
  | nil => rfl
  | cons x xs ih => simp [parseList, param_json_roundtrip, ih]

/-- Cons-shaped form of `parseList_param`. -/
theorem parseList_param_cons (x : Parameter) (xs : List Parameter) :
    parseList Parameter.fromJson? (Parameter.toJson x :: List.map Parameter.toJson xs) =
      some (x :: xs) :=
  parseList_param (x :: xs)

/-- Round trip of a `Protocol`. -/
theorem protocol_json_roundtrip (p : Protocol) : Protocol.fromJson? p.toJson = some p := by
  cases p
  rfl

/-- Elementwise round trip of a protocol list. -/
theorem parseList_protocol (l : List Protocol) :
    parseList Protocol.fromJson? (l.map Protocol.toJson) = some l := by
  induction l with
  | nil => rfl
  | cons x xs ih => simp [parseList, protocol_json_roundtrip, ih]

/-- Cons-shaped form of `parseList_protocol`. -/
theorem parseList_protocol_cons (x : Protocol) (xs : List Protocol) :
    parseList Protocol.fromJson? (Protocol.toJson x :: List.map Protocol.toJson xs) =
      some (x :: xs) :=
  parseList_protocol (x :: xs)

/-- Round trip of a `Statement` (no omit-if-falsy fields, so unconditional). -/
theorem statement_json_roundtrip (s : Statement) : Statement.fromJson? s.toJson = some s := by
  obtain ⟨sid, u, d, props, links, rroles, rem⟩ := s
  cases props <;> cases links <;> cases rroles <;> cases rem <;>
    simp [Statement.toJson, Statement.fromJson?, reqStr, defStr, optStr, optList,
      Json.lookupKey, optListField, optStrField, parseList_property, parseList_link,
      parseList_rrole]

/-- Elementwise round trip of a statement list. -/
theorem parseList_statement (l : List Statement) :
    parseList Statement.fromJson? (l.map Statement.toJson) = some l := by
  induction l with
  | nil => rfl
  | cons x xs ih => simp [parseList, statement_json_roundtrip, ih]

/-- Cons-shaped form of `parseList_statement`. -/
theorem parseList_statement_cons (x : Statement) (xs : List Statement) :
    parseList Statement.fromJson? (Statement.toJson x :: List.map Statement.toJson xs) =
      some (x :: xs) :=
  parseList_statement (x :: xs)

/-- Round trip of a canonical `ImplementedRequirement`: the three omit-if-falsy fields
must not be present-but-empty. -/
theorem ir_json_roundtrip (ir : ImplementedRequirement)
    (h : ir.canonical) :
    ImplementedRequirement.fromJson? ir.toJson = some ir := by
  obtain ⟨u, cid, d, props, links, sps, rroles, stmts, rem⟩ := ir
  unfold ImplementedRequirement.canonical at h
  obtain ⟨h1, h2, h3⟩ := h
  rcases exclOpt_cases _ h1 with rfl | ⟨sp0, spRest, rfl⟩ <;>
    rcases exclOpt_cases _ h2 with rfl | ⟨rr0, rrRest, rfl⟩ <;>
      rcases exclOpt_cases _ h3 with rfl | ⟨st0, stRest, rfl⟩ <;>
        cases props <;> cases links <;> cases rem <;>
          simp [ImplementedRequirement.toJson, ImplementedRequirement.fromJson?, reqStr,
            optStr, optList, Json.lookupKey, optListField, optStrField, exclOptListField,
            parseList_property, parseList_property_cons, parseList_link,
            parseList_link_cons, parseList_param, parseList_param_cons, parseList_rrole,
            parseList_rrole_cons, parseList_statement, parseList_statement_cons]

/-- Elementwise round trip of a canonical requirement list. -/
theorem parseList_ir (l : List ImplementedRequirement)
    (h : ∀ ir ∈ l, ir.canonical) :
    parseList ImplementedRequirement.fromJson? (l.map ImplementedRequirement.toJson) =
      some l := by
  induction l with
  | nil => rfl
  | cons x xs ih =>
    simp [parseList, ir_json_roundtrip x (h x (List.mem_cons_self x xs)),
      ih (fun ir hir => h ir (List.mem_cons_of_mem x hir))]

/-- Round trip of a `ControlImplementation` whose requirements are canonical. -/
theorem ci_json_roundtrip (ci : ControlImplementation)
    (h : ∀ ir ∈ ci.implemented_requirements, ir.canonical) :
    ControlImplementation.fromJson? ci.toJson = some ci := by
  obtain ⟨u, src, d, props, links, irs⟩ := ci
  simp only at h
  cases props <;> cases links <;>
    simp [ControlImplementation.toJson, ControlImplementation.fromJson?, reqStr, optStr,
      optList, defList, Json.lookupKey, optListField, optStrField, parseList_property,
      parseList_link, parseList_ir irs h]

/-- Elementwise round trip of a canonical control-implementation list. -/
theorem parseList_ci (l : List ControlImplementation)
    (h : ∀ ci ∈ l, ∀ ir ∈ ci.implemented_requirements, ir.canonical) :
    parseList ControlImplementation.fromJson? (l.map ControlImplementation.toJson) =
      some l := by
  induction l with
  | nil => rfl
  | cons x xs ih =>
    simp [parseList, ci_json_roundtrip x (h x (List.mem_cons_self x xs)),
      ih (fun ci hci => h ci (List.mem_cons_of_mem x hci))]

/-- Round trip of a component type tag. -/
theorem component_type_roundtrip (t : ComponentTypeEnum) :
    ComponentTypeEnum.ofWire t.toWire = some t := by
  cases t <;> rfl

set_option maxHeartbeats 2000000 in
/-- Claim C3 (amended): deserializing the serialized wire form reproduces a valid
in-memory `Component` exactly, provided the instance is canonical — no omit-if-falsy
optional field (`statements`, `set-parameters`, `responsible-roles` on a requirement)
holds a present-but-empty list.  Consequently, re-serializing the parse of the
serialized form of a canonical instance reproduces the document exactly.  A
present-but-empty omit-if-falsy field is dropped by serialization and reads back as
absent, which is what breaks the unrestricted claim. -/
theorem component_roundtrip_canonical (c : Component) (h : c.canonical) :
    Component.fromJson? c.toJson = some c := by
  obtain ⟨u, ty, t, d, pu, props, links, rroles, protos, cis, rem⟩ := c
  unfold Component.canonical at h
  simp only at h
  cases cis with
  | nil =>
    cases pu <;> cases props <;> cases links <;> cases rroles <;> cases protos <;>
      cases rem <;>
        simp [Component.toJson, Component.fromJson?, reqStr, optStr, optList, defList,
          Json.lookupKey, optListField, optStrField, exclListField,
          component_type_roundtrip, parseList_property, parseList_link,
          parseList_rrole, parseList_protocol]
  | cons c0 cRest =>
    have hci : parseList ControlImplementation.fromJson?
        (ControlImplementation.toJson c0 :: List.map ControlImplementation.toJson cRest) =
        some (c0 :: cRest) := parseList_ci (c0 :: cRest) h
    cases pu <;> cases props <;> cases links <;> cases rroles <;> cases protos <;>
      cases rem <;>
        simp [Component.toJson, Component.fromJson?, reqStr, optStr, optList, defList,
          Json.lookupKey, optListField, optStrField, exclListField,
          component_type_roundtrip, parseList_property, parseList_link,
          parseList_rrole, parseList_protocol, hci]

/-- A requirement whose `statements` field is present but empty. -/
def irBad : ImplementedRequirement :=
  { uuid := "u5", control_id := "ac-1", description := "narrative",
    statements := some [] }

/-- A control implementation holding the present-but-empty-statements requirement. -/
def ciBad : ControlImplementation :=
  { uuid := "u6", source := "s", description := "NIST_SP80053R5",
    implemented_requirements := [irBad] }

/-- A component whose serialization drops the empty `statements` list. -/
def componentBad : Component :=
  { uuid := "u7", title := "T", description := "D",
    control_implementations := [ciBad] }

/-- The requirement of `componentBad` as it reads back: `statements` has become
absent. -/
def irBadReread : ImplementedRequirement :=
  { uuid := "u5", control_id := "ac-1", description := "narrative", statements := none }

/-- The control implementation of `componentBad` as it reads back. -/
def ciBadReread : ControlImplementation :=
  { uuid := "u6", source := "s", description := "NIST_SP80053R5",
    implemented_requirements := [irBadReread] }

/-- What `componentBad` actually parses back to. -/
def componentBadReread : Component :=
  { uuid := "u7", title := "T", description := "D",
    control_implementations := [ciBadReread] }

/-- Claim C3 counterexample: the round-trip law fails as stated universally — for the
valid in-memory instance `componentBad`, whose requirement carries
`statements := some []`, deserializing its serialized form does not return the instance
(the omit-if-falsy rule drops the empty list on write and it reads back as absent). -/
theorem component_roundtrip_counterexample :
    Component.fromJson? componentBad.toJson ≠ some componentBad ∧
    Component.fromJson? componentBad.toJson = some componentBadReread ∧
    componentBadReread ≠ componentBad := by
  refine ⟨by decide, by decide, by decide⟩

/-- A canonical statement for the witness component. -/
def stW3 : Statement :=
  { statement_id := "ac-1_smt.a", uuid := "u11", description := "sd" }

/-- A canonical requirement for the witness component. -/
def irW3 : ImplementedRequirement :=
  { uuid := "u10", control_id := "ac-1", description := "n",
    statements := some [stW3] }

/-- A canonical control implementation for the witness component. -/
def ciW3 : ControlImplementation :=
  { uuid := "u9", source := "s", description := "NIST_SP80053R5",
    implemented_requirements := [irW3] }

/-- A canonical component exercising every nesting level. -/
def cW3 : Component :=
  { uuid := "u8", title := "T", description := "D",
    props := some [⟨"provider", "yes"⟩],
    control_implementations := [ciW3] }

/-- Claim C3 witness: the canonical round trip at a concrete component. -/
theorem component_roundtrip_canonical_witness :
    cW3.canonical ∧ Component.fromJson? cW3.toJson = some cW3 :=
  ⟨by decide, component_roundtrip_canonical cW3 (by decide)⟩
